import Mathlib

/-!
Formal model of the question-generator core of the aws-cloudops-quiz-app
repository: the database integration agent (backup, merge, validation,
rollback), the error-handling module (failure classification, exponential
backoff, retry wrapper), and the main execution flow (batch loop, pause,
state persistence).  Python values are embedded as plain Lean data:
dictionaries become association lists or structures with Option fields,
machine floats become rationals, file systems become explicit state records,
and fallible code returns Except.
-/

namespace QuizGen

/-! ### Decimal rendering, modelling Python string formatting of integers -/

/-- Decimal digit character: Python renders digit d as chr(48 + d). -/
def digitChar (n : Nat) : Char := Char.ofNat (48 + n)

/-- Fuel-indexed decimal rendering (structural recursion so terms reduce). -/
def natDigitsFuel : Nat → Nat → List Char
  | 0, _ => []
  | fuel + 1, n =>
    if n < 10 then [digitChar n]
    else natDigitsFuel fuel (n / 10) ++ [digitChar (n % 10)]

/-- Decimal digits of a natural number, most significant first. -/
def natDigits (n : Nat) : List Char := natDigitsFuel (n + 1) n

/-- Read a digit list back into a number (leading zeros are ignored). -/
def decodeDigits (l : List Char) : Nat :=
  l.foldl (fun a c => 10 * a + (c.toNat - 48)) 0

/-- Zero padding to width 3, modelling Python format "03d". -/
def pad3Chars (n : Nat) : List Char :=
  if n < 10 then '0' :: '0' :: natDigits n
  else if n < 100 then '0' :: natDigits n
  else natDigits n

/-- Question identifier string, modelling the Python expression
rendering "q" followed by the number zero padded to width 3. -/
def qid (n : Nat) : String := String.mk ('q' :: pad3Chars n)

/-! ### String utilities for the error classifier -/

/-- Lowercased character view of a message, modelling the Python
expression applying lower() to the rendered exception text. -/
def lowerStr (s : String) : List Char := s.toList.map Char.toLower

/-- Substring test on character lists, modelling the Python "in" operator
on strings (the empty needle is contained in every string). -/
def containsSub (needle : List Char) : List Char → Bool
  | [] => needle.isEmpty
  | c :: t => needle.isPrefixOf (c :: t) || containsSub needle t

/-! ### error_handling.py: exception taxonomy and classifier -/

/-- The exception classes of error_handling.py; each carries the message
that str(error) renders (modelled without the optional details dict). -/
inductive PyError where
  | retryableError (msg : String)
  | nonRetryableError (msg : String)
  | bedrockConnectionError (msg : String)
  | mcpConnectionError (msg : String)
  | validationError (msg : String)
  | examGuideAnalysisError (msg : String)
  | questionGenerationError (msg : String)
  | otherError (msg : String)
deriving DecidableEq, Repr

def PyError.msg : PyError → String
  | .retryableError m => m
  | .nonRetryableError m => m
  | .bedrockConnectionError m => m
  | .mcpConnectionError m => m
  | .validationError m => m
  | .examGuideAnalysisError m => m
  | .questionGenerationError m => m
  | .otherError m => m

/-- The retryable message patterns listed in is_retryable_error. -/
def retryablePatterns : List (List Char) :=
  ["timeout".toList, "connection".toList, "network".toList,
   "throttling".toList, "rate limit".toList, "service unavailable".toList,
   "internal server error".toList, "temporary failure".toList,
   "try again".toList]

def hasRetryablePattern (msg : String) : Bool :=
  retryablePatterns.any (fun p => containsSub p (lowerStr msg))

/-- is_retryable_error: explicit classes first, then the lowercased-message
pattern scan, and only after that the ValidationError check, mirroring
the order of the source. -/
def is_retryable_error (e : PyError) : Bool :=
  match e with
  | .retryableError _ => true
  | .nonRetryableError _ => false
  | .bedrockConnectionError _ => true
  | .mcpConnectionError _ => true
  | _ =>
    if hasRetryablePattern e.msg then true
    else
      match e with
      | .validationError _ => false
      | _ => false

/-! ### error_handling.py: backoff delay (floats embedded as rationals) -/

/-- calculate_backoff_delay.  The call random.uniform(-jitter_amount,
jitter_amount) is embedded as jitter_amount * j for a draw j in [-1, 1]
supplied as an explicit argument. -/
def calculate_backoff_delay (attempt : Nat) (base_delay max_delay exponential_base : ℚ)
    (jitter : Bool) (j : ℚ) : ℚ :=
  let delay := base_delay * exponential_base ^ attempt
  let delay := min delay max_delay
  let delay := if jitter then delay + delay * (1 / 10) * j else delay
  max 0 delay

/-- The delay before any jitter: min(base * exponent ^ attempt, max). -/
def cappedDelay (attempt : Nat) (base_delay max_delay exponential_base : ℚ) : ℚ :=
  min (base_delay * exponential_base ^ attempt) max_delay

/-! ### error_handling.py: retry_with_backoff -/

/-- The default retryable_exceptions tuple of retry_with_backoff. -/
def inRetryableExceptions (e : PyError) : Bool :=
  match e with
  | .retryableError _ => true
  | .bedrockConnectionError _ => true
  | .mcpConnectionError _ => true
  | _ => false

/-- Outcome of the retry wrapper: the propagated result and the 0-based
index of the attempt that produced it (a backoff sleep happens exactly
before each attempt after the first, so attemptsUsed = 0 means the result
was propagated with no retry and no delay). -/
structure RetryOutcome (α : Type) where
  result : Except PyError α
  attemptsUsed : Nat
deriving Repr

/-- The attempt loop of retry_with_backoff.  The wrapped call is embedded
as a function from the attempt index to its outcome; fuel counts the
remaining iterations after the current one and never runs out when
started with fuel = maxRetries. -/
def retryGo (f : Nat → Except PyError α) (maxRetries : Nat) : Nat → Nat → RetryOutcome α
  | attempt, fuel =>
    match f attempt with
    | .ok a => ⟨.ok a, attempt⟩
    | .error e =>
      if attempt = maxRetries then ⟨.error e, attempt⟩
      else if inRetryableExceptions e || is_retryable_error e then
        match fuel with
        | 0 => ⟨.error e, attempt⟩
        | fuel + 1 => retryGo f maxRetries (attempt + 1) fuel
      else ⟨.error e, attempt⟩

/-- retry_with_backoff applied to a unit of work. -/
def retry_with_backoff (maxRetries : Nat) (f : Nat → Except PyError α) : RetryOutcome α :=
  retryGo f maxRetries 0 maxRetries

/-! ### Count maps: Python dicts of String to int as association lists -/

/-- Sum of the values of a count map, modelling sum(d.values()). -/
def mapSum (m : List (String × Int)) : Int := (m.map (·.2)).sum

/-- Membership test on keys, modelling the Python "in" operator on dicts. -/
def hasKey (m : List (String × Int)) (k : String) : Bool := m.any (·.1 == k)

/-- Increment the value at an existing key, leaving the map unchanged when
the key is absent: this embeds the guarded update that only runs when the
membership test succeeds. -/
def incKey : List (String × Int) → String → List (String × Int)
  | [], _ => []
  | (k, v) :: t, key => if k == key then (k, v + 1) :: t else (k, v) :: incKey t key

/-- Fold the guarded increment over a list of tags. -/
def updateCounts (m : List (String × Int)) (tags : List String) : List (String × Int) :=
  tags.foldl incKey m

/-! ### database_integration_agent.py: the store document -/

/-- One entry of the "questions" array, restricted to the keys the
integration agent and the validators consult (id via q.get, and the
domain, difficulty and type tags read by the merge).  The remaining
payload keys (question text, options, explanation, ...) are opaque to
the code under study and are not modelled. -/
structure QItem where
  qId : Option String
  domain : String
  difficulty : String
  qtype : String
deriving DecidableEq, Repr

/-- A question of an incoming QuestionBatch after model_dump: the id is a
required field of the pydantic Question model. -/
structure BatchQuestion where
  qId : String
  domain : String
  difficulty : String
  qtype : String
deriving DecidableEq, Repr

/-- The questions.json document, restricted to the top-level keys the
agent reads or writes.  Option models key absence (dict.get defaults). -/
structure StoreData where
  version : Option String
  generated_at : Option String
  generation_method : Option String
  total_questions : Option Int
  domains : Option (List (String × Int))
  difficulty : Option (List (String × Int))
  question_types : Option (List (String × Int))
  questions : Option (List QItem)
deriving DecidableEq, Repr

/-- The empty database structure synthesized when no file exists. -/
def emptyDb (now : String) : StoreData :=
  { version := some "2.0.0"
    generated_at := some now
    generation_method := some "AI-Strands-Agents-Bedrock"
    total_questions := some 0
    domains := some [("monitoring", 0), ("reliability", 0), ("deployment", 0),
                     ("security", 0), ("networking", 0)]
    difficulty := some [("easy", 0), ("medium", 0), ("hard", 0)]
    question_types := some [("single", 0), ("multiple", 0)]
    questions := some [] }

/-! ### database_integration_agent.py: validators -/

/-- The expected identifier sequence q001 .. qNNN for n questions. -/
def expectedIds (n : Nat) : List String := (List.range n).map (fun i => qid (i + 1))

/-- The issue list accumulated by validate_json_structure, in source
order: required fields, id sequence, count mismatch, then the three
distribution sums.  In this typed embedding every entry of the questions
array is a dict, so the branch reporting entries without an id key when
some entry is not a dict cannot fire (a missing id renders as the empty
string and is reported as a broken sequence, as in the source). -/
def structureIssues (data : StoreData) : List String :=
  let issues : List String := []
  let issues := issues ++ (if data.version.isNone then ["Missing required field: version"] else [])
  let issues := issues ++ (if data.generated_at.isNone then ["Missing required field: generated_at"] else [])
  let issues := issues ++ (if data.total_questions.isNone then ["Missing required field: total_questions"] else [])
  let issues := issues ++ (if data.domains.isNone then ["Missing required field: domains"] else [])
  let issues := issues ++ (if data.difficulty.isNone then ["Missing required field: difficulty"] else [])
  let issues := issues ++ (if data.question_types.isNone then ["Missing required field: question_types"] else [])
  let issues := issues ++ (if data.questions.isNone then ["Missing required field: questions"] else [])
  let questions := data.questions.getD []
  let actual_ids := questions.map (fun q => q.qId.getD "")
  let issues := issues ++
    (if actual_ids ≠ expectedIds questions.length then ["Question ID sequence is not continuous"] else [])
  let total := data.total_questions.getD 0
  let issues := issues ++
    (if (questions.length : Int) ≠ total then
      ["Question count mismatch: " ++ toString questions.length ++ " vs " ++ toString total] else [])
  let domains := data.domains.getD []
  let issues := issues ++
    (if mapSum domains ≠ total then
      ["Domain distribution sum (" ++ toString (mapSum domains) ++ ") != total questions (" ++ toString total ++ ")"] else [])
  let difficulty := data.difficulty.getD []
  let issues := issues ++
    (if mapSum difficulty ≠ total then
      ["Difficulty distribution sum (" ++ toString (mapSum difficulty) ++ ") != total questions (" ++ toString total ++ ")"] else [])
  let question_types := data.question_types.getD []
  let issues := issues ++
    (if mapSum question_types ≠ total then
      ["Question types sum (" ++ toString (mapSum question_types) ++ ") != total questions (" ++ toString total ++ ")"] else [])
  issues

/-- validate_json_structure returns (len(issues) == 0, issues). -/
def validate_json_structure (data : StoreData) : Bool × List String :=
  ((structureIssues data).isEmpty, structureIssues data)

/-- The duplicate collector of validate_id_continuity: an id is reported
each time it has already been seen. -/
def dupIds : List String → List String → List String
  | [], _ => []
  | x :: t, seen => (if seen.contains x then [x] else []) ++ dupIds t (x :: seen)

/-- The issue list of validate_id_continuity: indices with a falsy id,
one mismatch issue per position, then duplicates. -/
def idIssues (questions : List QItem) : List String :=
  let question_ids := questions.map (fun q => q.qId.getD "")
  let missing := (question_ids.enum.filter (fun p => p.2 = "")).map (·.1)
  let issues : List String :=
    (if missing ≠ [] then ["Questions missing IDs at indices: " ++ toString missing] else [])
  let mismatches :=
    ((question_ids.zip (expectedIds questions.length)).filter (fun p => p.1 ≠ p.2)).map
      (fun p => "ID mismatch: expected " ++ p.2 ++ ", got " ++ p.1)
  let issues := issues ++ mismatches
  let duplicates := dupIds question_ids []
  let issues := issues ++
    (if duplicates ≠ [] then ["Duplicate question IDs: " ++ toString duplicates] else [])
  issues

/-- validate_id_continuity: empty input short-circuits to (true, []). -/
def validate_id_continuity (questions : List QItem) : Bool × List String :=
  if questions.isEmpty then (true, [])
  else ((idIssues questions).isEmpty, idIssues questions)

/-! ### database_integration_agent.py: the merge -/

/-- perform_integration: append the batch with freshly assigned sequential
identifiers, set total_questions and generated_at, and apply the guarded
increments to the three count maps (a map stays exactly as it was for a
tag that is not one of its keys; a map key that is absent at top level is
left absent, since the default dict produced by dict.get is discarded). -/
def perform_integration (current : StoreData) (batch : List BatchQuestion) (now : String) :
    StoreData :=
  let current_questions := current.questions.getD []
  let next_id_num := current_questions.length + 1
  let new_questions := batch.enum.map
    (fun p => QItem.mk (some (qid (next_id_num + p.1))) p.2.domain p.2.difficulty p.2.qtype)
  let all_questions := current_questions ++ new_questions
  { current with
    questions := some all_questions
    total_questions := some (all_questions.length : Int)
    generated_at := some now
    domains := current.domains.map (fun m => updateCounts m (new_questions.map (·.domain)))
    difficulty := current.difficulty.map (fun m => updateCounts m (new_questions.map (·.difficulty)))
    question_types := current.question_types.map (fun m => updateCounts m (new_questions.map (·.qtype))) }

/-! ### database_integration_agent.py: integrate_batch_with_structured_output -/

/-- The IntegrationResult fields the agent assigns from computed values.
The free-text and timing fields (backup_path, rollback_instructions,
integration_time_seconds, updated_metadata, integrated_at) are opaque to
every claim and are not modelled. -/
structure IntegrationResult where
  success : Bool
  batch_number : Nat
  questions_added : Nat
  new_total_questions : Int
  added_question_ids : List String
  validation_passed : Bool
  schema_compliance : Bool
  id_sequence_valid : Bool
  backup_created : Bool
  rollback_available : Bool
  issues : List String
deriving DecidableEq, Repr

/-- Observable outcome of one integration call: the returned result, the
live store file afterwards, the pre-mutation backup contents when one was
created, and whether restore_from_backup ran. -/
structure IntegrateOutput where
  result : IntegrationResult
  dbFile : Option StoreData
  backupFile : Option StoreData
  restoreInvoked : Bool
deriving DecidableEq, Repr

/-- integrate_batch_with_structured_output as a transition on the live
store file (db = none models a missing questions.json).  The structured
output call to the model is an external supplier whose returned object has
every claim-relevant field overwritten by the computed values, so it is
not modelled.  Creating a backup of a missing file raises, which the
enclosing handler re-raises as a QuestionGenerationError (Except.error);
on the validation-failure path nothing has written the live file, and
restore copies the just-created backup back over it. -/
def integrate_batch (db : Option StoreData) (batch : List BatchQuestion)
    (batchNumber : Nat) (create_backup : Bool) (now : String) :
    Except String IntegrateOutput :=
  match db, create_backup with
  | none, true =>
    .error "Failed to create backup: Database file not found"
  | _, _ =>
    let backup_info : Option StoreData := if create_backup then db else none
    let current_data := db.getD (emptyDb now)
    let integrated_data := perform_integration current_data batch now
    let sv := validate_json_structure integrated_data
    let iv := validate_id_continuity (integrated_data.questions.getD [])
    let all_issues := sv.2 ++ iv.2
    let validation_passed := sv.1 && iv.1
    let dbFile :=
      if validation_passed then some integrated_data
      else match backup_info with
        | some b => some b
        | none => db
    let restoreInvoked := !validation_passed && backup_info.isSome
    .ok
      { result :=
          { success := validation_passed
            batch_number := batchNumber
            questions_added := if validation_passed then batch.length else 0
            new_total_questions := integrated_data.total_questions.getD 0
            added_question_ids := if validation_passed then batch.map (·.qId) else []
            validation_passed := validation_passed
            schema_compliance := sv.1
            id_sequence_valid := iv.1
            backup_created := backup_info.isSome
            rollback_available := backup_info.isSome
            issues := all_issues }
        dbFile := dbFile
        backupFile := backup_info
        restoreInvoked := restoreInvoked }

/-! ### database_integration_agent.py: backup manager on the file level -/

/-- SHA-256 digest of a store file, idealized as a collision-free digest
and therefore represented by the hashed contents themselves: the code
only ever compares digests for equality. -/
def calcChecksum (c : StoreData) : StoreData := c

/-- The DatabaseBackup fields the backup manager computes and the restore
consults (timestamps, size and retention metadata are opaque to the
claims).  checksum is optional in the pydantic model; a computed digest
is a nonempty hex string, hence truthy, so truthiness is isSome here. -/
structure DatabaseBackup where
  backup_id : String
  backup_file_path : String
  questions_count : Nat
  checksum : Option StoreData
deriving DecidableEq, Repr

/-- The files the backup manager touches: the live questions.json and the
backup directory, each path mapped to its contents. -/
structure BackupFs where
  live : Option StoreData
  backupFiles : List (String × StoreData)
deriving DecidableEq, Repr

def lookupFile (files : List (String × StoreData)) (path : String) : Option StoreData :=
  (files.find? (fun p => p.1 == path)).map (·.2)

/-- create_backup: raises when the live store file is missing, otherwise
copies it to the (timestamped, batch-tagged) backup path, records the
digest and the question count, and returns the metadata record.  The
generated path and id are supplied as arguments since they only encode
the wall clock and the batch number. -/
def create_backup (fs : BackupFs) (backup_id backup_path : String) :
    Except String (DatabaseBackup × BackupFs) :=
  match fs.live with
  | none => .error "Failed to create backup: Database file not found"
  | some c =>
    .ok ({ backup_id := backup_id
           backup_file_path := backup_path
           questions_count := (c.questions.getD []).length
           checksum := some (calcChecksum c) },
         { fs with backupFiles := (backup_path, c) :: fs.backupFiles })

/-- restore_from_backup (the internal variant used for rollback): raises
when the backup file is missing, verifies the recorded digest before
touching anything and raises on a mismatch, and otherwise copies the
backup back over the live store. -/
def restore_from_backup (fs : BackupFs) (backup_info : DatabaseBackup) :
    Except String BackupFs :=
  match lookupFile fs.backupFiles backup_info.backup_file_path with
  | none => .error "Backup file not found"
  | some c =>
    match backup_info.checksum with
    | some recorded =>
      if calcChecksum c ≠ recorded then .error "Backup file integrity check failed"
      else .ok { fs with live := some c }
    | none => .ok { fs with live := some c }

/-! ### main_execution_flow.py: flow and batch state -/

inductive FlowStatus where
  | not_started | initializing | running | paused | completed | failed | recovering
deriving DecidableEq, Repr

inductive BatchStatus where
  | pending | analyzing | planning | researching | generating
  | validating | optimizing | integrating | completed | failed | retrying
deriving DecidableEq, Repr

/-- BatchProgress, restricted to the fields the batch loop reads or
writes (timestamps, step names and scores are opaque to the claims). -/
structure BatchProgress where
  batch_number : Nat
  status : BatchStatus
  error_message : Option String
  retry_count : Nat
  max_retries : Nat
deriving DecidableEq, Repr

def initBatchProgress (n : Nat) : BatchProgress :=
  { batch_number := n, status := .pending, error_message := none
    retry_count := 0, max_retries := 3 }

/-- FlowProgress, restricted to the fields the loop and the claims use.
The batch_progress dict is an association list keyed by batch number. -/
structure FlowProgress where
  status : FlowStatus
  total_batches : Nat
  completed_batches : Nat
  failed_batches : Nat
  current_batch : Option Nat
  batch_progress : List (Nat × BatchProgress)
  pause_requested : Bool
  recovery_mode : Bool
deriving DecidableEq, Repr

/-- batch_progress[n]; the constructor populates keys 1..19 so lookups in
the loop always hit (the default only keeps the embedding total). -/
def bpGet (st : FlowProgress) (n : Nat) : BatchProgress :=
  ((st.batch_progress.find? (fun p => p.1 == n)).map (·.2)).getD (initBatchProgress n)

def bpSet (st : FlowProgress) (n : Nat) (bp : BatchProgress) : FlowProgress :=
  { st with batch_progress := st.batch_progress.map (fun p => if p.1 == n then (n, bp) else p) }

/-- The fresh FlowProgress built by the constructor: 19 pending batches. -/
def initFlowProgress : FlowProgress :=
  { status := .not_started
    total_batches := 19
    completed_batches := 0
    failed_batches := 0
    current_batch := none
    batch_progress := (List.range' 1 19).map (fun n => (n, initBatchProgress n))
    pause_requested := false
    recovery_mode := false }

/-! ### main_execution_flow.py: batch processing and the run loop

The environment of one run is embedded as two functions of the batch
number: env gives the outcome of the seven workflow steps of that batch
(true = the integration result is produced, false = some step raises),
and pauseDuring says whether the operator calls pause_flow while that
batch is processing (the flag is only polled between batches, so it
becomes visible at the next loop iteration).

process_batch_with_workflow is declared async and decorated with
retry_with_backoff; calling the decorated wrapper merely constructs the
coroutine, which never raises inside the wrapper, so the decorator
returns the coroutine on its first attempt and the body runs exactly once
per loop call, with no retry.  Its exception handler marks the batch
failed, records the error, bumps retry_count, increments the
failed-batch counter and re-raises; the loop-level handler in
run_complete_flow then marks the batch failed again and increments the
failed-batch counter a second time. -/

/-- One iteration of the batch loop of run_complete_flow for batch n
(the part after the pause check and the recovery skip). -/
def batchIteration (st : FlowProgress) (n : Nat) (ok : Bool) : FlowProgress :=
  let st := { st with current_batch := some n }
  let bp := bpGet st n
  if bp.retry_count < bp.max_retries then
    if ok then
      let st := bpSet st n { bp with status := .completed }
      { st with completed_batches := st.completed_batches + 1 }
    else
      -- body handler of process_batch_with_workflow, then the loop handler
      let st := bpSet st n
        { bp with status := .failed, error_message := some "step error"
                  retry_count := bp.retry_count + 1 }
      let st := { st with failed_batches := st.failed_batches + 1 }
      let bp := bpGet st n
      let st := bpSet st n { bp with status := .failed, error_message := some "step error" }
      { st with failed_batches := st.failed_batches + 1 }
  else
    let st := bpSet st n { bp with status := .failed }
    { st with failed_batches := st.failed_batches + 1 }

/-- The batch loop over the hard-coded range(1, 20), with the pause check
at the top of each iteration and the recovery skip; after the loop the
flow is marked completed and the current batch pointer cleared.  The
pause flag set during batch n becomes visible at the following
iteration. -/
def runBatchLoop (env pauseDuring : Nat → Bool) : FlowProgress → List Nat → FlowProgress
  | st, [] => { st with status := .completed, current_batch := none }
  | st, n :: rest =>
    if st.pause_requested then { st with status := .paused }
    else if st.recovery_mode && (bpGet st n).status == .completed then
      runBatchLoop env pauseDuring st rest
    else
      let st := batchIteration st n (env n)
      let st := { st with pause_requested := st.pause_requested || pauseDuring n }
      runBatchLoop env pauseDuring st rest

/-- run_complete_flow on a fresh state (no prior state file): the status
becomes running and batches 1..19 are driven through the loop. -/
def run_complete_flow (env pauseDuring : Nat → Bool) : FlowProgress :=
  runBatchLoop env pauseDuring { initFlowProgress with status := .running } (List.range' 1 19)

/-- pause_flow only sets the request flag. -/
def pause_flow (st : FlowProgress) : FlowProgress :=
  { st with pause_requested := true }

/-! ### main_execution_flow.py: save_state -/

/-- File-system operations a save could perform.  renameReplace is the
atomic replacement primitive the claim expects; the source never uses
it. -/
inductive FsOp where
  | write (path content : String)
  | renameReplace (src dst : String)
deriving DecidableEq, Repr

def state_file_path : String := "execution_state.json"

def flowStatusStr : FlowStatus → String
  | .not_started => "not_started"
  | .initializing => "initializing"
  | .running => "running"
  | .paused => "paused"
  | .completed => "completed"
  | .failed => "failed"
  | .recovering => "recovering"

def batchStatusStr : BatchStatus → String
  | .pending => "pending"
  | .analyzing => "analyzing"
  | .planning => "planning"
  | .researching => "researching"
  | .generating => "generating"
  | .validating => "validating"
  | .optimizing => "optimizing"
  | .integrating => "integrating"
  | .completed => "completed"
  | .failed => "failed"
  | .retrying => "retrying"

def jsonStr (s : String) : String := "\"" ++ s ++ "\""

def jsonOptNat : Option Nat → String
  | none => "null"
  | some n => toString n

/-- Serialized form of one BatchProgress entry of the state_data dict. -/
def serializeBatch (bp : BatchProgress) : String :=
  jsonStr (toString bp.batch_number) ++ ": \x7b\"batch_number\": " ++ toString bp.batch_number ++
    ", \"status\": " ++ jsonStr (batchStatusStr bp.status) ++
    ", \"retry_count\": " ++ toString bp.retry_count ++
    ", \"max_retries\": " ++ toString bp.max_retries ++ "\x7d"

/-- Serialized state_data snapshot written by save_state (the full
FlowProgress and the whole batch map, as in the source). -/
def serializeFlow (st : FlowProgress) : String :=
  "\x7b\"progress\": \x7b\"status\": " ++ jsonStr (flowStatusStr st.status) ++
    ", \"total_batches\": " ++ toString st.total_batches ++
    ", \"completed_batches\": " ++ toString st.completed_batches ++
    ", \"failed_batches\": " ++ toString st.failed_batches ++
    ", \"current_batch\": " ++ jsonOptNat st.current_batch ++
    ", \"pause_requested\": " ++ (if st.pause_requested then "true" else "false") ++
    ", \"recovery_mode\": " ++ (if st.recovery_mode then "true" else "false") ++
    "\x7d, \"batch_progress\": \x7b" ++
    String.intercalate ", " (st.batch_progress.map (fun p => serializeBatch p.2)) ++
    "\x7d\x7d"

/-- save_state: one direct open-for-write of the state file with the full
serialized snapshot.  There is no temporary file and no rename. -/
def save_state (st : FlowProgress) : List FsOp :=
  [FsOp.write state_file_path (serializeFlow st)]

/-- The write-then-rename pattern the specification describes: a complete
write to a distinct temporary path followed by an atomic replace of the
state file. -/
def AtomicSavePattern (ops : List FsOp) : Prop :=
  ∃ tmp content, tmp ≠ state_file_path ∧
    ops = [FsOp.write tmp content, FsOp.renameReplace tmp state_file_path]

/-! ### Statement-side predicates and concrete inputs -/

/-- The store invariants the validators check (presence of the required
fields, count equal to the declared total, the exact contiguous id
sequence, and the three distribution sums), written as a hypothesis
predicate for the claims about valid stores. -/
def ValidStore (d : StoreData) : Prop :=
  d.version.isSome = true ∧ d.generated_at.isSome = true ∧
  d.total_questions.isSome = true ∧ d.domains.isSome = true ∧
  d.difficulty.isSome = true ∧ d.question_types.isSome = true ∧
  d.questions.isSome = true ∧
  ((d.questions.getD []).length : Int) = d.total_questions.getD 0 ∧
  (d.questions.getD []).map (fun q => q.qId.getD "") = expectedIds (d.questions.getD []).length ∧
  mapSum (d.domains.getD []) = d.total_questions.getD 0 ∧
  mapSum (d.difficulty.getD []) = d.total_questions.getD 0 ∧
  mapSum (d.question_types.getD []) = d.total_questions.getD 0

instance (d : StoreData) : Decidable (ValidStore d) := by
  unfold ValidStore; infer_instance

/-- Selector for the three tag kinds whose count maps the merge updates. -/
inductive TagKind where
  | domain | difficulty | qtype
deriving DecidableEq, Repr

def tagOf : TagKind → BatchQuestion → String
  | .domain, q => q.domain
  | .difficulty, q => q.difficulty
  | .qtype, q => q.qtype

def mapOf : TagKind → StoreData → Option (List (String × Int))
  | .domain, d => d.domains
  | .difficulty, d => d.difficulty
  | .qtype, d => d.question_types

/-- A store holding one question q001, with consistent metadata. -/
def exDb1 : StoreData :=
  { version := some "2.0.0"
    generated_at := some "t0"
    generation_method := some "AI-Strands-Agents-Bedrock"
    total_questions := some 1
    domains := some [("monitoring", 1), ("reliability", 0), ("deployment", 0),
                     ("security", 0), ("networking", 0)]
    difficulty := some [("easy", 1), ("medium", 0), ("hard", 0)]
    question_types := some [("single", 1), ("multiple", 0)]
    questions := some [⟨some "q001", "monitoring", "easy", "single"⟩] }

/-- A ten-question batch arriving pre-numbered q001..q010, all tagged with
known keys of the count maps. -/
def exBatchKnown : List BatchQuestion :=
  (List.range' 1 10).map (fun i => ⟨qid i, "monitoring", "easy", "single"⟩)

/-- A ten-question batch whose domain tag is not a key of any store
domain map. -/
def exBatchUnknown : List BatchQuestion :=
  (List.range' 1 10).map (fun i => ⟨qid i, "storage", "easy", "single"⟩)

/-- The 19-batch run in which the stage work of batch 1 raises and every
other batch succeeds, with no pause request. -/
def c6Run : FlowProgress := run_complete_flow (fun n => n != 1) (fun _ => false)

/-- The 19-batch run in which every batch succeeds and pause_flow is
called while batch k is processing. -/
def c5Run (k : Nat) : FlowProgress := run_complete_flow (fun _ => true) (fun n => n == k)

/-! ## Supporting lemmas -/

theorem digitChar_toNat {d : Nat} (h : d < 10) : (digitChar d).toNat = 48 + d := by
  interval_cases d <;> rfl

theorem decodeDigits_append_singleton (l : List Char) (c : Char) :
    decodeDigits (l ++ [c]) = 10 * decodeDigits l + (c.toNat - 48) := by
  simp [decodeDigits, List.foldl_append]

theorem decodeDigits_natDigitsFuel :
    ∀ fuel n, n < fuel → decodeDigits (natDigitsFuel fuel n) = n := by
  intro fuel
  induction fuel with
  | zero => intro n h; omega
  | succ f ih =>
    intro n h
    by_cases h10 : n < 10
    · simp [natDigitsFuel, h10, decodeDigits, digitChar_toNat h10]
    · have hn0 : 0 < n := by omega
      have hdiv : n / 10 < n := Nat.div_lt_self hn0 (by omega)
      have hlt : n / 10 < f := by omega
      have hmod : n % 10 < 10 := Nat.mod_lt _ (by omega)
      simp only [natDigitsFuel, if_neg h10]
      rw [decodeDigits_append_singleton, ih _ hlt, digitChar_toNat hmod]
      omega

theorem decodeDigits_natDigits (n : Nat) : decodeDigits (natDigits n) = n :=
  decodeDigits_natDigitsFuel (n + 1) n (Nat.lt_succ_self n)

theorem decodeDigits_cons_zero (l : List Char) :
    decodeDigits ('0' :: l) = decodeDigits l := by
  simp [decodeDigits, List.foldl_cons]

theorem decodeDigits_pad3Chars (n : Nat) : decodeDigits (pad3Chars n) = n := by
  unfold pad3Chars
  by_cases h10 : n < 10
  · simp [h10, decodeDigits_cons_zero, decodeDigits_natDigits]
  · by_cases h100 : n < 100 <;>
      simp [h10, h100, decodeDigits_cons_zero, decodeDigits_natDigits]

theorem pad3Chars_injective : Function.Injective pad3Chars := by
  intro a b h
  have := congrArg decodeDigits h
  simpa [decodeDigits_pad3Chars] using this

theorem qid_injective : Function.Injective qid := by
  intro a b h
  apply pad3Chars_injective
  have : 'q' :: pad3Chars a = 'q' :: pad3Chars b := congrArg String.data h
  exact List.cons_injective this

theorem qid_ne_empty (n : Nat) : qid n ≠ "" := by
  intro h
  have : ('q' :: pad3Chars n) = ([] : List Char) := congrArg String.data h
  simp at this

theorem hasKey_eq (m : List (String × Int)) (k : String) :
    hasKey m k = (m.map (·.1)).any (· == k) := by
  induction m with
  | nil => rfl
  | cons p t ih =>
    simp only [List.map_cons, List.any_cons]
    rw [← ih]
    rfl

theorem mapSum_cons (k : String) (v : Int) (t : List (String × Int)) :
    mapSum ((k, v) :: t) = v + mapSum t := by
  simp [mapSum]

theorem incKey_keys (m : List (String × Int)) (k : String) :
    (incKey m k).map (·.1) = m.map (·.1) := by
  induction m with
  | nil => rfl
  | cons p t ih =>
    obtain ⟨k0, v⟩ := p
    by_cases h : k0 == k <;> simp [incKey, h, ih]

theorem incKey_of_not_hasKey {m : List (String × Int)} {k : String}
    (h : hasKey m k = false) : incKey m k = m := by
  induction m with
  | nil => rfl
  | cons p t ih =>
    obtain ⟨k0, v⟩ := p
    simp only [hasKey, List.any_cons, Bool.or_eq_false_iff] at h
    have ht : hasKey t k = false := h.2
    simp only [incKey, ih ht]
    rw [if_neg]
    simp [h.1]

theorem incKey_sum {m : List (String × Int)} {k : String}
    (h : hasKey m k = true) : mapSum (incKey m k) = mapSum m + 1 := by
  induction m with
  | nil => simp [hasKey] at h
  | cons p t ih =>
    obtain ⟨k0, v⟩ := p
    by_cases hk : (k0 == k) = true
    · simp only [incKey, if_pos hk, mapSum_cons]
      ring
    · have ht : hasKey t k = true := by
        simp only [hasKey, List.any_cons, Bool.or_eq_true] at h
        rcases h with h1 | h2
        · exact absurd h1 hk
        · exact h2
      simp only [incKey, if_neg hk, mapSum_cons, ih ht]
      ring

theorem updateCounts_nil (m : List (String × Int)) : updateCounts m [] = m := rfl

theorem updateCounts_cons (m : List (String × Int)) (t : String) (ts : List String) :
    updateCounts m (t :: ts) = updateCounts (incKey m t) ts := rfl

theorem updateCounts_keys (tags : List String) :
    ∀ m : List (String × Int), (updateCounts m tags).map (·.1) = m.map (·.1) := by
  induction tags with
  | nil => intro m; rfl
  | cons t ts ih =>
    intro m
    rw [updateCounts_cons, ih, incKey_keys]

theorem hasKey_congr {m₁ m₂ : List (String × Int)}
    (h : m₁.map (·.1) = m₂.map (·.1)) (k : String) : hasKey m₁ k = hasKey m₂ k := by
  rw [hasKey_eq, hasKey_eq, h]

theorem updateCounts_hasKey (tags : List String) (m : List (String × Int)) (k : String) :
    hasKey (updateCounts m tags) k = hasKey m k :=
  hasKey_congr (updateCounts_keys tags m) k

theorem updateCounts_sum (tags : List String) :
    ∀ m : List (String × Int),
      mapSum (updateCounts m tags) =
        mapSum m + ((tags.filter (fun t => hasKey m t)).length : Int) := by
  induction tags with
  | nil => intro m; simp [updateCounts_nil]
  | cons t ts ih =>
    intro m
    rw [updateCounts_cons, ih]
    have hkeys : ∀ x ∈ ts, hasKey (incKey m t) x = hasKey m x :=
      fun x _ => hasKey_congr (incKey_keys m t) x
    rw [List.filter_congr hkeys]
    by_cases ht : hasKey m t
    · rw [incKey_sum ht]
      simp [List.filter_cons, ht]
      ring
    · rw [incKey_of_not_hasKey (by simpa using ht)]
      simp [List.filter_cons, ht]

theorem validate_json_structure_fst_iff (d : StoreData) :
    (validate_json_structure d).1 = true ↔ (validate_json_structure d).2 = [] := by
  simp [validate_json_structure, List.isEmpty_iff]

theorem validate_id_continuity_fst_iff (qs : List QItem) :
    (validate_id_continuity qs).1 = true ↔ (validate_id_continuity qs).2 = [] := by
  unfold validate_id_continuity
  by_cases h : qs.isEmpty <;> simp [h, List.isEmpty_iff]

theorem structureIssues_eq_nil {d : StoreData} (h : ValidStore d) :
    structureIssues d = [] := by
  obtain ⟨h1, h2, h3, h4, h5, h6, h7, h8, h9, h10, h11, h12⟩ := h
  obtain ⟨v1, hv1⟩ := Option.isSome_iff_exists.mp h1
  obtain ⟨v2, hv2⟩ := Option.isSome_iff_exists.mp h2
  obtain ⟨v3, hv3⟩ := Option.isSome_iff_exists.mp h3
  obtain ⟨v4, hv4⟩ := Option.isSome_iff_exists.mp h4
  obtain ⟨v5, hv5⟩ := Option.isSome_iff_exists.mp h5
  obtain ⟨v6, hv6⟩ := Option.isSome_iff_exists.mp h6
  obtain ⟨v7, hv7⟩ := Option.isSome_iff_exists.mp h7
  simp only [structureIssues, hv1, hv2, hv3, hv4, hv5, hv6, hv7, Option.getD_some] at *
  simp [h8, h9, h10, h11, h12]

theorem validate_json_structure_of_valid {d : StoreData} (h : ValidStore d) :
    validate_json_structure d = (true, []) := by
  simp [validate_json_structure, structureIssues_eq_nil h]

theorem enumFrom_filter_empty_of_ne :
    ∀ (l : List String) (n : Nat), (∀ x ∈ l, x ≠ "") →
      (List.enumFrom n l).filter (fun p => p.2 = "") = [] := by
  intro l
  induction l with
  | nil => intro n _; rfl
  | cons x t ih =>
    intro n h
    have hx : ¬ x = "" := h x (List.mem_cons_self x t)
    simp only [List.enumFrom, List.filter_cons]
    rw [if_neg (by simpa using hx)]
    exact ih (n + 1) (fun y hy => h y (List.mem_cons_of_mem x hy))

theorem zip_self_filter_ne (l : List String) :
    (l.zip l).filter (fun p => p.1 ≠ p.2) = [] := by
  induction l with
  | nil => rfl
  | cons x t ih =>
    simp only [List.zip_cons_cons, List.filter_cons]
    rw [if_neg (by simp)]
    exact ih

theorem dupIds_eq_nil :
    ∀ (l : List String) (seen : List String), l.Nodup → (∀ x ∈ l, x ∉ seen) →
      dupIds l seen = [] := by
  intro l
  induction l with
  | nil => intro seen _ _; rfl
  | cons x t ih =>
    intro seen hnd hs
    have hx : x ∉ seen := hs x (List.mem_cons_self x t)
    have hc : seen.contains x = false := by
      cases hcc : seen.contains x with
      | false => rfl
      | true => exact absurd (List.elem_iff.mp hcc) hx
    simp only [dupIds, hc]
    have hnd' := (List.nodup_cons.mp hnd)
    refine (by simp : ([] : List String) ++ dupIds t (x :: seen) = dupIds t (x :: seen)) ▸ ?_
    simp only [List.nil_append]
    exact ih (x :: seen) hnd'.2 (fun y hy => by
      simp only [List.mem_cons]
      rintro (rfl | hmem)
      · exact hnd'.1 hy
      · exact hs y (List.mem_cons_of_mem x hy) hmem)

theorem expectedIds_nodup (n : Nat) : (expectedIds n).Nodup := by
  refine (List.nodup_range n).map ?_
  intro a b h
  have := qid_injective h
  omega

theorem mem_expectedIds_ne_empty {n : Nat} {x : String}
    (h : x ∈ expectedIds n) : x ≠ "" := by
  obtain ⟨i, _, rfl⟩ := List.mem_map.mp h
  exact qid_ne_empty _

theorem validate_id_continuity_of_expected {qs : List QItem}
    (h : qs.map (fun q => q.qId.getD "") = expectedIds qs.length) :
    validate_id_continuity qs = (true, []) := by
  by_cases hq : qs.isEmpty
  · simp [validate_id_continuity, hq]
  · have hids : idIssues qs = [] := by
      unfold idIssues
      rw [h]
      have hmiss : (List.enum (expectedIds qs.length)).filter (fun p => p.2 = "") = [] :=
        enumFrom_filter_empty_of_ne _ 0 (fun x hx => mem_expectedIds_ne_empty hx)
      simp only [hmiss, List.map_nil, zip_self_filter_ne,
        dupIds_eq_nil (expectedIds qs.length) [] (expectedIds_nodup _) (by simp)]
      simp
    simp [validate_id_continuity, hq, hids]

theorem enum_map_fst_fun (l : List α) (g : Nat → β) :
    l.enum.map (fun p => g p.1) = (List.range l.length).map g := by
  have : (fun p : Nat × α => g p.1) = g ∘ Prod.fst := rfl
  rw [this, ← List.map_map, List.enum_map_fst]

theorem enum_map_snd_fun (l : List α) (g : α → β) :
    l.enum.map (fun p => g p.2) = l.map g := by
  have : (fun p : Nat × α => g p.2) = g ∘ Prod.snd := rfl
  rw [this, ← List.map_map, List.enum_map_snd]

/-- The new questions appended by the merge for a store with n existing
questions. -/
def newQuestions (n : Nat) (batch : List BatchQuestion) : List QItem :=
  batch.enum.map
    (fun p => QItem.mk (some (qid (n + 1 + p.1))) p.2.domain p.2.difficulty p.2.qtype)

theorem perform_integration_eq (d : StoreData) (batch : List BatchQuestion) (now : String) :
    perform_integration d batch now =
      { d with
        questions := some ((d.questions.getD []) ++
          newQuestions (d.questions.getD []).length batch)
        total_questions :=
          some (((d.questions.getD []).length + batch.length : Nat) : Int)
        generated_at := some now
        domains := d.domains.map (fun m => updateCounts m (batch.map (·.domain)))
        difficulty := d.difficulty.map (fun m => updateCounts m (batch.map (·.difficulty)))
        question_types := d.question_types.map (fun m => updateCounts m (batch.map (·.qtype))) } := by
  unfold perform_integration newQuestions
  have hdom : (batch.enum.map (fun p =>
      QItem.mk (some (qid ((d.questions.getD []).length + 1 + p.1)))
        p.2.domain p.2.difficulty p.2.qtype)).map (·.domain) = batch.map (·.domain) := by
    rw [List.map_map]
    exact enum_map_snd_fun batch (·.domain)
  have hdiff : (batch.enum.map (fun p =>
      QItem.mk (some (qid ((d.questions.getD []).length + 1 + p.1)))
        p.2.domain p.2.difficulty p.2.qtype)).map (·.difficulty) = batch.map (·.difficulty) := by
    rw [List.map_map]
    exact enum_map_snd_fun batch (·.difficulty)
  have htyp : (batch.enum.map (fun p =>
      QItem.mk (some (qid ((d.questions.getD []).length + 1 + p.1)))
        p.2.domain p.2.difficulty p.2.qtype)).map (·.qtype) = batch.map (·.qtype) := by
    rw [List.map_map]
    exact enum_map_snd_fun batch (·.qtype)
  simp only [hdom, hdiff, htyp, List.length_append, List.length_map, List.enum_length]

theorem newQuestions_ids (n : Nat) (batch : List BatchQuestion) :
    (newQuestions n batch).map (fun q => q.qId.getD "") =
      (List.range batch.length).map (fun i => qid (n + 1 + i)) := by
  unfold newQuestions
  rw [List.map_map]
  exact enum_map_fst_fun batch (fun i => qid (n + 1 + i))

theorem newQuestions_length (n : Nat) (batch : List BatchQuestion) :
    (newQuestions n batch).length = batch.length := by
  simp [newQuestions]

theorem expectedIds_append (n k : Nat) :
    expectedIds (n + k) = expectedIds n ++ (List.range k).map (fun i => qid (n + 1 + i)) := by
  unfold expectedIds
  rw [List.range_add, List.map_append, List.map_map]
  congr 1
  apply List.map_congr_left
  intro i _
  simp only [Function.comp_apply]
  congr 1
  omega

/-- If one of the three distribution sums disagrees with the declared
total, the structure validator reports at least one issue. -/
theorem structureIssues_ne_nil_of_sum_ne (d : StoreData) (k : TagKind)
    (h : mapSum ((mapOf k d).getD []) ≠ d.total_questions.getD 0) :
    structureIssues d ≠ [] := by
  intro hnil
  cases k <;>
    · simp only [mapOf] at h
      simp only [structureIssues, List.append_eq_nil, List.append_assoc] at hnil
      simp only [ite_eq_right_iff, List.cons_ne_nil, imp_false, not_not] at hnil
      first
        | exact h hnil.2.2.2.2.2.2.2.2.2.2.1
        | exact h hnil.2.2.2.2.2.2.2.2.2.2.2.1
        | exact h hnil.2.2.2.2.2.2.2.2.2.2.2.2

theorem ValidStore_merged {d : StoreData} (batch : List BatchQuestion) (now : String)
    (hv : ValidStore d)
    (hdomA : ∀ q ∈ batch, hasKey (d.domains.getD []) q.domain = true)
    (hdiffA : ∀ q ∈ batch, hasKey (d.difficulty.getD []) q.difficulty = true)
    (htypA : ∀ q ∈ batch, hasKey (d.question_types.getD []) q.qtype = true) :
    ValidStore (perform_integration d batch now) := by
  obtain ⟨h1, h2, h3, h4, h5, h6, h7, h8, h9, h10, h11, h12⟩ := hv
  obtain ⟨m4, hv4⟩ := Option.isSome_iff_exists.mp h4
  obtain ⟨m5, hv5⟩ := Option.isSome_iff_exists.mp h5
  obtain ⟨m6, hv6⟩ := Option.isSome_iff_exists.mp h6
  rw [perform_integration_eq]
  have hfilter : ∀ (m : List (String × Int)) (proj : BatchQuestion → String),
      (∀ q ∈ batch, hasKey m (proj q) = true) →
      mapSum (updateCounts m (batch.map proj)) = mapSum m + (batch.length : Int) := by
    intro m proj hall
    rw [updateCounts_sum]
    have : (batch.map proj).filter (fun t => hasKey m t) = batch.map proj := by
      apply List.filter_eq_self.mpr
      intro x hx
      obtain ⟨q, hq, rfl⟩ := List.mem_map.mp hx
      exact hall q hq
    rw [this, List.length_map]
  refine ⟨h1, by simp, by simp, by simp [hv4], by simp [hv5], by simp [hv6], by simp, ?_, ?_, ?_, ?_, ?_⟩
  · simp [List.length_append, newQuestions_length]
  · simp only [Option.getD_some, List.map_append, List.length_append, newQuestions_length]
    rw [newQuestions_ids, h9, expectedIds_append]
  · simp only [hv4, Option.map_some', Option.map_some, Option.getD_some]
    rw [hfilter m4 (·.domain) (by simpa [hv4] using hdomA)]
    simp only [hv4, Option.getD_some] at h10
    rw [h10]
    rw [← h8]
    push_cast
    ring
  · simp only [hv5, Option.map_some', Option.map_some, Option.getD_some]
    rw [hfilter m5 (·.difficulty) (by simpa [hv5] using hdiffA)]
    simp only [hv5, Option.getD_some] at h11
    rw [h11, ← h8]
    push_cast
    ring
  · simp only [hv6, Option.map_some', Option.map_some, Option.getD_some]
    rw [hfilter m6 (·.qtype) (by simpa [hv6] using htypA)]
    simp only [hv6, Option.getD_some] at h12
    rw [h12, ← h8]
    push_cast
    ring

/-! ## Claim theorems -/

/-- C7: the structure validator is a total function (it cannot raise in
this embedding), it returns isValid = true exactly when its issue list is
empty, and on a store satisfying every checked invariant (required
fields, count equal to total, exact contiguous id sequence, and the three
distribution sums) both validators return (true, []). -/
theorem c7_validator_iff_and_idempotent (d : StoreData) :
    ((validate_json_structure d).1 = true ↔ (validate_json_structure d).2 = []) ∧
    ((validate_id_continuity (d.questions.getD [])).1 = true ↔
      (validate_id_continuity (d.questions.getD [])).2 = []) ∧
    (ValidStore d →
      validate_json_structure d = (true, []) ∧
      validate_id_continuity (d.questions.getD []) = (true, [])) := by
  refine ⟨validate_json_structure_fst_iff d, validate_id_continuity_fst_iff _, ?_⟩
  intro hv
  refine ⟨validate_json_structure_of_valid hv, ?_⟩
  have h9 := hv.2.2.2.2.2.2.2.2.1
  exact validate_id_continuity_of_expected h9

/-- C7 witness: the synthesized empty store satisfies the invariants and
both validators accept it with an empty issue list. -/
theorem c7_witness :
    ValidStore (emptyDb "t0") ∧
    validate_json_structure (emptyDb "t0") = (true, []) ∧
    validate_id_continuity ((emptyDb "t0").questions.getD []) = (true, []) :=
  ⟨by decide, (c7_validator_iff_and_idempotent (emptyDb "t0")).2.2 (by decide)⟩

/-- C9 counterexample: save_state does not perform the claimed
write-to-temporary-then-rename sequence. -/
theorem c9_counterexample : ¬ AtomicSavePattern (save_state initFlowProgress) := by
  rintro ⟨tmp, content, hne, heq⟩
  simp [save_state] at heq

/-- C9 amended: every save writes the full serialized snapshot directly
to the state file in place, with a single write and no temporary path or
rename, so a concurrent reader may observe a partially written file. -/
theorem c9_save_state_single_in_place_write (st : FlowProgress) :
    save_state st = [FsOp.write state_file_path (serializeFlow st)] := rfl

/-- C3 counterexample: with jitter enabled the computed delay can exceed
the configured maximum (base 1, max 1, exponent 2, attempt 0, draw at the
top of the jitter interval gives delay 11/10 > 1). -/
theorem c3_counterexample :
    (0 : ℚ) < 1 ∧ (1 : ℚ) ≤ 2 ∧ |(1 : ℚ)| ≤ 1 ∧
    calculate_backoff_delay 0 1 1 2 true 1 = 11 / 10 ∧ (11 / 10 : ℚ) > 1 := by
  refine ⟨by norm_num, by norm_num, by norm_num, ?_, by norm_num⟩
  unfold calculate_backoff_delay
  norm_num

/-- C3 amended: the delay equals min(base * exponent ^ attempt, max)
perturbed by at most ten percent when jitter is enabled, the unjittered
delay is monotonically non-decreasing in the attempt number, and the
delay never exceeds 11/10 of the configured maximum (the jitter is added
after the cap, so it can overshoot the maximum by up to ten percent;
without jitter the delay equals the capped value and never exceeds the
maximum). -/
theorem c3_backoff_delay_properties (attempt : Nat) (base maxd expb j : ℚ) (jit : Bool)
    (hb : 0 < base) (hm : 0 < maxd) (he : 1 ≤ expb) (hj : |j| ≤ 1) :
    |calculate_backoff_delay attempt base maxd expb jit j -
        cappedDelay attempt base maxd expb| ≤ cappedDelay attempt base maxd expb / 10 ∧
    cappedDelay attempt base maxd expb ≤ cappedDelay (attempt + 1) base maxd expb ∧
    calculate_backoff_delay attempt base maxd expb jit j ≤ 11 / 10 * maxd ∧
    (jit = false →
      calculate_backoff_delay attempt base maxd expb jit j =
        cappedDelay attempt base maxd expb ∧
      calculate_backoff_delay attempt base maxd expb jit j ≤ maxd) := by
  have hepos : (0 : ℚ) < expb := lt_of_lt_of_le one_pos he
  have hpow : (0 : ℚ) < expb ^ attempt := pow_pos hepos attempt
  have hupos : 0 < cappedDelay attempt base maxd expb := lt_min (mul_pos hb hpow) hm
  have hum : cappedDelay attempt base maxd expb ≤ maxd := min_le_right _ _
  obtain ⟨hjlo, hjhi⟩ := abs_le.mp hj
  have hmono : cappedDelay attempt base maxd expb ≤ cappedDelay (attempt + 1) base maxd expb := by
    unfold cappedDelay
    refine min_le_min ?_ le_rfl
    exact mul_le_mul_of_nonneg_left (pow_le_pow_right₀ he (Nat.le_succ attempt)) hb.le
  cases jit with
  | false =>
    have hceq : calculate_backoff_delay attempt base maxd expb false j =
        cappedDelay attempt base maxd expb := by
      simp only [calculate_backoff_delay, Bool.false_eq_true, if_false]
      exact max_eq_right hupos.le
    rw [hceq]
    refine ⟨by simp [div_nonneg hupos.le], hmono, by nlinarith, fun _ => ⟨rfl, hum⟩⟩
  | true =>
    have hnn : (0 : ℚ) ≤ cappedDelay attempt base maxd expb * (1 / 10) :=
      mul_nonneg hupos.le (by norm_num)
    have hge := mul_le_mul_of_nonneg_left hjlo hnn
    have hle := mul_le_mul_of_nonneg_left hjhi hnn
    have hceq : calculate_backoff_delay attempt base maxd expb true j =
        cappedDelay attempt base maxd expb +
          cappedDelay attempt base maxd expb * (1 / 10) * j := by
      simp only [calculate_backoff_delay, if_true]
      refine max_eq_right ?_
      show (0 : ℚ) ≤ cappedDelay attempt base maxd expb +
        cappedDelay attempt base maxd expb * (1 / 10) * j
      nlinarith
    rw [hceq]
    refine ⟨?_, hmono, by nlinarith, fun hff => Bool.noConfusion hff⟩
    rw [add_sub_cancel_left]
    rw [abs_le]
    constructor <;> nlinarith

/-- C3 witness: the amended bounds at attempt 1 with base 1, max 60,
exponent 2, jitter on, draw 1/2. -/
theorem c3_witness :
    |calculate_backoff_delay 1 1 60 2 true (1 / 2) - cappedDelay 1 1 60 2| ≤
      cappedDelay 1 1 60 2 / 10 ∧
    cappedDelay 1 1 60 2 ≤ cappedDelay 2 1 60 2 ∧
    calculate_backoff_delay 1 1 60 2 true (1 / 2) ≤ 11 / 10 * 60 ∧
    (true = false →
      calculate_backoff_delay 1 1 60 2 true (1 / 2) = cappedDelay 1 1 60 2 ∧
      calculate_backoff_delay 1 1 60 2 true (1 / 2) ≤ 60) :=
  c3_backoff_delay_properties 1 1 60 2 (1 / 2) true (by norm_num) (by norm_num)
    (by norm_num) (by rw [abs_le]; constructor <;> norm_num)

/-- C4 counterexample: a ValidationError whose message contains the
substring "timeout" is classified retryable, and the wrapper retries it
until the attempts are exhausted. -/
theorem c4_counterexample :
    is_retryable_error (.validationError "Validation timeout") = true ∧
    (retry_with_backoff 3
      (fun _ => (.error (.validationError "Validation timeout") :
        Except PyError Unit))).attemptsUsed = 3 := by
  exact ⟨by decide, by decide⟩

/-- C4 amended: a ValidationError whose lowercased message contains none
of the retryable substrings is classified non-retryable, and the retry
wrapper propagates it unchanged on the first attempt with no retry and no
delay; a ValidationError whose message matches a retryable pattern is
classified retryable instead, because the pattern scan runs before the
ValidationError check. -/
theorem c4_validation_error_propagates (α : Type) (m : Nat) (msg : String)
    (f : Nat → Except PyError α)
    (hf : f 0 = .error (.validationError msg))
    (hp : hasRetryablePattern msg = false) :
    is_retryable_error (.validationError msg) = false ∧
    retry_with_backoff m f = ⟨.error (.validationError msg), 0⟩ := by
  have hcls : is_retryable_error (.validationError msg) = false := by
    simp [is_retryable_error, PyError.msg, hp]
  refine ⟨hcls, ?_⟩
  unfold retry_with_backoff retryGo
  rw [hf]
  by_cases hm : (0 : Nat) = m
  · simp [hm]
  · have hor : (inRetryableExceptions (.validationError msg) ||
        is_retryable_error (.validationError msg)) = false := by
      simp [inRetryableExceptions, hcls]
    simp [hm, hor]

/-- C4 witness: a ValidationError with message "schema violation" is
non-retryable and propagates on attempt 0. -/
theorem c4_witness :
    is_retryable_error (.validationError "schema violation") = false ∧
    retry_with_backoff 3
      (fun _ => (.error (.validationError "schema violation") : Except PyError Unit)) =
      ⟨.error (.validationError "schema violation"), 0⟩ :=
  c4_validation_error_propagates Unit 3 "schema violation" _ rfl (by decide)

/-- C8: creating a backup of store contents S, mutating the live store to
any contents Sp, then restoring from that backup leaves the live store
equal to S; the restore verifies the recorded digest first, and on any
state whose stored backup file digests differently it raises without
touching the live store. -/
theorem c8_backup_restore_roundtrip (S Sp c : StoreData) (fs0 fs2 : BackupFs)
    (bid bpath : String)
    (hlive : fs0.live = some S)
    (hlook : lookupFile fs2.backupFiles bpath = some c)
    (hne : calcChecksum c ≠ calcChecksum S) :
    create_backup fs0 bid bpath =
      .ok (⟨bid, bpath, (S.questions.getD []).length, some (calcChecksum S)⟩,
           ⟨some S, (bpath, S) :: fs0.backupFiles⟩) ∧
    restore_from_backup ⟨some Sp, (bpath, S) :: fs0.backupFiles⟩
        ⟨bid, bpath, (S.questions.getD []).length, some (calcChecksum S)⟩ =
      .ok ⟨some S, (bpath, S) :: fs0.backupFiles⟩ ∧
    restore_from_backup fs2
        ⟨bid, bpath, (S.questions.getD []).length, some (calcChecksum S)⟩ =
      .error "Backup file integrity check failed" := by
  obtain ⟨l, bkf⟩ := fs0
  simp only at hlive
  subst hlive
  refine ⟨rfl, ?_, ?_⟩
  · unfold restore_from_backup lookupFile
    simp [calcChecksum]
  · unfold restore_from_backup
    rw [show lookupFile fs2.backupFiles
        (DatabaseBackup.mk bid bpath (S.questions.getD []).length
          (some (calcChecksum S))).backup_file_path = some c from hlook]
    simp only [calcChecksum] at hne ⊢
    simp [hne]

/-- C8 witness: round trip and corruption detection at concrete stores. -/
theorem c8_witness :
    create_backup ⟨some (emptyDb "t0"), []⟩ "b1" "p1" =
      .ok (⟨"b1", "p1", ((emptyDb "t0").questions.getD []).length,
            some (calcChecksum (emptyDb "t0"))⟩,
           ⟨some (emptyDb "t0"), [("p1", emptyDb "t0")]⟩) ∧
    restore_from_backup ⟨some (emptyDb "t1"), [("p1", emptyDb "t0")]⟩
        ⟨"b1", "p1", ((emptyDb "t0").questions.getD []).length,
          some (calcChecksum (emptyDb "t0"))⟩ =
      .ok ⟨some (emptyDb "t0"), [("p1", emptyDb "t0")]⟩ ∧
    restore_from_backup ⟨none, [("p1", emptyDb "t2")]⟩
        ⟨"b1", "p1", ((emptyDb "t0").questions.getD []).length,
          some (calcChecksum (emptyDb "t0"))⟩ =
      .error "Backup file integrity check failed" := by
  have h := c8_backup_restore_roundtrip (emptyDb "t0") (emptyDb "t1") (emptyDb "t2")
    ⟨some (emptyDb "t0"), []⟩ ⟨none, [("p1", emptyDb "t2")]⟩ "b1" "p1" rfl rfl (by decide)
  exact ⟨h.1, by simpa using h.2.1, h.2.2⟩

/-- C10: if a batch item carries a domain, difficulty or type tag that is
not a key of the corresponding count map of a consistent current store,
the merge appends the items to the question list but creates no new key
in that map, the merged map sum is strictly below the merged declared
total, and the subsequent structure validation of the merged result
fails. -/
theorem c10_unknown_tag_breaks_validation (k : TagKind) (d : StoreData)
    (batch : List BatchQuestion) (now : String)
    (m : List (String × Int)) (q : BatchQuestion)
    (hmap : mapOf k d = some m)
    (hsum : mapSum m = d.total_questions.getD 0)
    (hlen : ((d.questions.getD []).length : Int) = d.total_questions.getD 0)
    (hq : q ∈ batch) (hk : hasKey m (tagOf k q) = false) :
    ((perform_integration d batch now).questions.getD []).length =
      (d.questions.getD []).length + batch.length ∧
    ((mapOf k (perform_integration d batch now)).getD []).map (·.1) = m.map (·.1) ∧
    hasKey ((mapOf k (perform_integration d batch now)).getD []) (tagOf k q) = false ∧
    mapSum ((mapOf k (perform_integration d batch now)).getD []) <
      (perform_integration d batch now).total_questions.getD 0 ∧
    (validate_json_structure (perform_integration d batch now)).1 = false := by
  have hmerged : mapOf k (perform_integration d batch now) =
      some (updateCounts m (batch.map (fun b => tagOf k b))) := by
    rw [perform_integration_eq]
    cases k <;> simp only [mapOf] at hmap ⊢ <;> rw [hmap] <;> simp [tagOf]
  have hqlen : ((perform_integration d batch now).questions.getD []).length =
      (d.questions.getD []).length + batch.length := by
    rw [perform_integration_eq]
    simp [newQuestions_length]
  have htot : (perform_integration d batch now).total_questions.getD 0 =
      (((d.questions.getD []).length + batch.length : Nat) : Int) := by
    rw [perform_integration_eq]
    rfl
  have hsumlt : mapSum (updateCounts m (batch.map (fun b => tagOf k b))) <
      (((d.questions.getD []).length + batch.length : Nat) : Int) := by
    rw [updateCounts_sum]
    have hflt : (((batch.map (fun b => tagOf k b)).filter
        (fun t => hasKey m t)).length) < batch.length := by
      have hmem : tagOf k q ∈ batch.map (fun b => tagOf k b) :=
        List.mem_map_of_mem _ hq
      have hlt : ((batch.map (fun b => tagOf k b)).filter
          (fun t => hasKey m t)).length < (batch.map (fun b => tagOf k b)).length :=
        List.length_filter_lt_length_iff_exists.mpr ⟨tagOf k q, hmem, by simp [hk]⟩
      simpa using hlt
    have hm2 : mapSum m = ((d.questions.getD []).length : Int) := by
      rw [hsum, ← hlen]
    rw [hm2]
    push_cast
    omega
  have hne2 : mapSum ((mapOf k (perform_integration d batch now)).getD []) ≠
      (perform_integration d batch now).total_questions.getD 0 := by
    rw [hmerged, htot]
    exact ne_of_lt (by simpa using hsumlt)
  refine ⟨hqlen, ?_, ?_, ?_, ?_⟩
  · rw [hmerged]
    exact updateCounts_keys _ m
  · rw [hmerged]
    simp only [Option.getD_some]
    rw [updateCounts_hasKey]
    exact hk
  · rw [hmerged, htot]
    simpa using hsumlt
  · have hni := structureIssues_ne_nil_of_sum_ne _ k hne2
    cases hfst : (validate_json_structure (perform_integration d batch now)).1 with
    | false => rfl
    | true =>
      have := (validate_json_structure_fst_iff _).mp hfst
      exact absurd this hni

/-- C10 witness: merging a batch whose items carry the unknown domain tag
"storage" into the empty store leaves the domain map keys unchanged and
fails validation. -/
theorem c10_witness :
    ((perform_integration (emptyDb "t0") exBatchUnknown "t1").questions.getD []).length =
      (((emptyDb "t0").questions.getD []).length + exBatchUnknown.length) ∧
    ((mapOf .domain (perform_integration (emptyDb "t0") exBatchUnknown "t1")).getD []).map (·.1) =
      ([("monitoring", 0), ("reliability", 0), ("deployment", 0), ("security", 0),
        ("networking", 0)] : List (String × Int)).map (·.1) ∧
    hasKey ((mapOf .domain (perform_integration (emptyDb "t0") exBatchUnknown "t1")).getD [])
      (tagOf .domain ⟨qid 1, "storage", "easy", "single"⟩) = false ∧
    mapSum ((mapOf .domain (perform_integration (emptyDb "t0") exBatchUnknown "t1")).getD []) <
      (perform_integration (emptyDb "t0") exBatchUnknown "t1").total_questions.getD 0 ∧
    (validate_json_structure (perform_integration (emptyDb "t0") exBatchUnknown "t1")).1 = false :=
  c10_unknown_tag_breaks_validation .domain (emptyDb "t0") exBatchUnknown "t1"
    [("monitoring", 0), ("reliability", 0), ("deployment", 0), ("security", 0),
     ("networking", 0)]
    ⟨qid 1, "storage", "easy", "single"⟩ rfl (by decide) (by decide) (by decide) (by decide)

/-- C1: whenever the merged result fails consistency validation, the
integration call returns a failure IntegrationResult with a non-empty
issue list, the rollback restore runs exactly when a pre-mutation backup
was created, and the live store file afterwards equals its pre-call
contents. -/
theorem c1_rollback_on_invalid_merge (d : StoreData) (batch : List BatchQuestion)
    (bn : Nat) (cb : Bool) (now : String)
    (hfail : ((validate_json_structure (perform_integration d batch now)).1 &&
        (validate_id_continuity ((perform_integration d batch now).questions.getD [])).1)
        = false) :
    integrate_batch (some d) batch bn cb now =
      .ok { result :=
              { success := false
                batch_number := bn
                questions_added := 0
                new_total_questions := (perform_integration d batch now).total_questions.getD 0
                added_question_ids := []
                validation_passed := false
                schema_compliance := (validate_json_structure (perform_integration d batch now)).1
                id_sequence_valid :=
                  (validate_id_continuity
                    ((perform_integration d batch now).questions.getD [])).1
                backup_created := cb
                rollback_available := cb
                issues := (validate_json_structure (perform_integration d batch now)).2 ++
                  (validate_id_continuity
                    ((perform_integration d batch now).questions.getD [])).2 }
            dbFile := some d
            backupFile := if cb then some d else none
            restoreInvoked := cb } ∧
    (validate_json_structure (perform_integration d batch now)).2 ++
      (validate_id_continuity ((perform_integration d batch now).questions.getD [])).2 ≠ [] := by
  constructor
  · cases cb <;> simp [integrate_batch, Option.getD_some, hfail]
  · rcases Bool.and_eq_false_iff.mp hfail with hsv | hiv
    · have hsnd : (validate_json_structure (perform_integration d batch now)).2 ≠ [] := by
        intro hnil
        have := (validate_json_structure_fst_iff _).mpr hnil
        rw [this] at hsv
        cases hsv
      exact List.append_ne_nil_of_left_ne_nil hsnd _
    · have hsnd : (validate_id_continuity
          ((perform_integration d batch now).questions.getD [])).2 ≠ [] := by
        intro hnil
        have := (validate_id_continuity_fst_iff _).mpr hnil
        rw [this] at hiv
        cases hiv
      exact List.append_ne_nil_of_right_ne_nil _ hsnd

/-- C1 witness: integrating the unknown-domain batch into the empty store
fails validation, rolls back, and leaves the live file unchanged. -/
theorem c1_witness :
    integrate_batch (some (emptyDb "t0")) exBatchUnknown 1 true "t1" =
      .ok { result :=
              { success := false
                batch_number := 1
                questions_added := 0
                new_total_questions :=
                  (perform_integration (emptyDb "t0") exBatchUnknown "t1").total_questions.getD 0
                added_question_ids := []
                validation_passed := false
                schema_compliance :=
                  (validate_json_structure
                    (perform_integration (emptyDb "t0") exBatchUnknown "t1")).1
                id_sequence_valid :=
                  (validate_id_continuity
                    ((perform_integration (emptyDb "t0") exBatchUnknown "t1").questions.getD [])).1
                backup_created := true
                rollback_available := true
                issues :=
                  (validate_json_structure
                    (perform_integration (emptyDb "t0") exBatchUnknown "t1")).2 ++
                  (validate_id_continuity
                    ((perform_integration (emptyDb "t0") exBatchUnknown "t1").questions.getD [])).2 }
            dbFile := some (emptyDb "t0")
            backupFile := if true then some (emptyDb "t0") else none
            restoreInvoked := true } ∧
    (validate_json_structure (perform_integration (emptyDb "t0") exBatchUnknown "t1")).2 ++
      (validate_id_continuity
        ((perform_integration (emptyDb "t0") exBatchUnknown "t1").questions.getD [])).2 ≠ [] :=
  c1_rollback_on_invalid_merge (emptyDb "t0") exBatchUnknown 1 true "t1" (by decide)

/-- C2 counterexample: integrating the pre-numbered batch q001..q010 into
a store holding one question succeeds, the identifiers actually assigned
in the store are q002..q011, but the returned result carries the original
batch identifiers q001..q010, not the newly assigned ones. -/
theorem c2_counterexample :
    (integrate_batch (some exDb1) exBatchKnown 2 true "t1").toOption.map
        (fun o => (o.result.success, o.result.added_question_ids)) =
      some (true, (List.range' 1 10).map qid) ∧
    (integrate_batch (some exDb1) exBatchKnown 2 true "t1").toOption.map
        (fun o => o.dbFile.map (fun s => (s.questions.getD []).map (fun q => q.qId.getD ""))) =
      some (some ((List.range' 1 11).map qid)) ∧
    (List.range' 1 10).map qid ≠ (List.range' 2 10).map qid := by
  exact ⟨by decide, by decide, by decide⟩

/-- C2 amended: a successful integration stores the new items under the
identifiers numbered N+1 through N+k continuing the current sequence and
reports new total N+k, but the returned added_question_ids field carries
the original pre-assignment identifiers of the batch, which coincide with the
assigned ones only when the batch already carries them. -/
theorem c2_sequential_assignment (d : StoreData) (batch : List BatchQuestion)
    (bn : Nat) (cb : Bool) (now : String)
    (hv : ValidStore d)
    (hdomA : ∀ q ∈ batch, hasKey (d.domains.getD []) q.domain = true)
    (hdiffA : ∀ q ∈ batch, hasKey (d.difficulty.getD []) q.difficulty = true)
    (htypA : ∀ q ∈ batch, hasKey (d.question_types.getD []) q.qtype = true) :
    integrate_batch (some d) batch bn cb now =
      .ok { result :=
              { success := true
                batch_number := bn
                questions_added := batch.length
                new_total_questions :=
                  (((d.questions.getD []).length + batch.length : Nat) : Int)
                added_question_ids := batch.map (·.qId)
                validation_passed := true
                schema_compliance := true
                id_sequence_valid := true
                backup_created := cb
                rollback_available := cb
                issues := [] }
            dbFile := some (perform_integration d batch now)
            backupFile := if cb then some d else none
            restoreInvoked := false } ∧
    ((perform_integration d batch now).questions.getD []).map (fun q => q.qId.getD "") =
      expectedIds ((d.questions.getD []).length + batch.length) := by
  have hvm := ValidStore_merged batch now hv hdomA hdiffA htypA
  have hids : ((perform_integration d batch now).questions.getD []).map
      (fun q => q.qId.getD "") = expectedIds ((d.questions.getD []).length + batch.length) := by
    have h9 := hv.2.2.2.2.2.2.2.2.1
    rw [perform_integration_eq]
    simp only [Option.getD_some, List.map_append]
    rw [newQuestions_ids, h9, ← expectedIds_append]
  have hqlen : ((perform_integration d batch now).questions.getD []).length =
      (d.questions.getD []).length + batch.length := by
    rw [perform_integration_eq]
    simp [newQuestions_length]
  have hsv : validate_json_structure (perform_integration d batch now) = (true, []) :=
    validate_json_structure_of_valid hvm
  have hiv : validate_id_continuity
      ((perform_integration d batch now).questions.getD []) = (true, []) := by
    apply validate_id_continuity_of_expected
    rw [hqlen, hids]
  have htot : (perform_integration d batch now).total_questions =
      some (((d.questions.getD []).length + batch.length : Nat) : Int) := by
    rw [perform_integration_eq]
  refine ⟨?_, hids⟩
  cases cb <;>
    simp [integrate_batch, Option.getD_some, hsv, hiv, htot]

/-- C2 witness: the amended statement at the one-question store and the
pre-numbered known-tag batch. -/
theorem c2_witness :
    integrate_batch (some exDb1) exBatchKnown 2 true "t1" =
      .ok { result :=
              { success := true
                batch_number := 2
                questions_added := exBatchKnown.length
                new_total_questions :=
                  (((exDb1.questions.getD []).length + exBatchKnown.length : Nat) : Int)
                added_question_ids := exBatchKnown.map (·.qId)
                validation_passed := true
                schema_compliance := true
                id_sequence_valid := true
                backup_created := true
                rollback_available := true
                issues := [] }
            dbFile := some (perform_integration exDb1 exBatchKnown "t1")
            backupFile := if true then some exDb1 else none
            restoreInvoked := false } ∧
    ((perform_integration exDb1 exBatchKnown "t1").questions.getD []).map
        (fun q => q.qId.getD "") =
      expectedIds ((exDb1.questions.getD []).length + exBatchKnown.length) :=
  c2_sequential_assignment exDb1 exBatchKnown 2 true "t1" (by decide)
    (by decide) (by decide) (by decide)

/-- C5 counterexample: pause requested while batch 3 of 19 is processing;
after batch 3 finishes the flow is Paused with completedBatches = 3, but
current_batch is still 3, not null as the claim states. -/
theorem c5_counterexample :
    (c5Run 3).status = FlowStatus.paused ∧
    (c5Run 3).completed_batches = 3 ∧
    (bpGet (c5Run 3) 3).status = BatchStatus.completed ∧
    (c5Run 3).current_batch = some 3 ∧
    (c5Run 3).current_batch ≠ none := by
  exact ⟨by decide, by decide, by decide, by decide, by decide⟩

/-- C5 amended: when the pause flag is set while batch k of a 19-batch
all-successful run is processing (k before the last batch), the flag is
acted on only at the next batch boundary: batch k reaches the terminal
status Completed, and the flow then shows status Paused with
completedBatches = k and current_batch = k (the pointer is cleared to
null only when the whole flow completes, not on pause). -/
theorem c5_pause_at_batch_boundary :
    ∀ k : Nat, k < 18 →
      (c5Run (k + 1)).status = FlowStatus.paused ∧
      (c5Run (k + 1)).completed_batches = k + 1 ∧
      (bpGet (c5Run (k + 1)) (k + 1)).status = BatchStatus.completed ∧
      (c5Run (k + 1)).current_batch = some (k + 1) := by
  decide

/-- C5 witness: the amended statement at k = 3 (pause during batch 3). -/
theorem c5_witness :
    (c5Run 3).status = FlowStatus.paused ∧
    (c5Run 3).completed_batches = 3 ∧
    (bpGet (c5Run 3) 3).status = BatchStatus.completed ∧
    (c5Run 3).current_batch = some 3 :=
  c5_pause_at_batch_boundary 2 (by decide)

/-- C6: in the run where the stage work of batch 1 raises and every other
batch succeeds, the failed-batch counter ends at 2 although exactly one
batch has status Failed: the handler inside process_batch_with_workflow
and the loop-level handler in run_complete_flow both increment it, so the
counter does not equal the number of Failed batches as the claim (and the
specification) state. -/
theorem c6_failed_counter_double_increment :
    c6Run.failed_batches = 2 ∧
    ((List.range' 1 19).filter
      (fun n => (bpGet c6Run n).status == BatchStatus.failed)).length = 1 ∧
    c6Run.completed_batches = 18 ∧
    c6Run.failed_batches ≠
      ((List.range' 1 19).filter
        (fun n => (bpGet c6Run n).status == BatchStatus.failed)).length := by
  exact ⟨by decide, by decide, by decide, by decide⟩

end QuizGen
